import Mathlib

/-
Verification of the CLI dispatch / logging-level / exception-to-exit-code
convention of the python_snippets repository.

Embedded sources:
  * src/examples/typer/cli-app-typer.py   (MyAppException, main callback,
    clean_terminate, cli_run, the typer application surface)
  * src/examples/argparse/cli-app-argparse.py  (CmdApp.get_args,
    CmdApp.get_logger, CmdApp.cli)

Python machine integers are unbounded, so exception codes and logging
levels are modelled as Int; verbosity counts (argparse count action,
typer count option) are Nat.
-/

-- ===========================================================================
-- Logging severities (values of the python logging module)
-- ===========================================================================

def logging_CRITICAL : Int := 50
def logging_ERROR : Int := 40
def logging_WARN : Int := 30
def logging_INFO : Int := 20
def logging_DEBUG : Int := 10

/-- severity tag of an emitted log record -/
inductive LogLevel
  | debug
  | info
  | warning
  | error
  | critical
  deriving DecidableEq, Repr

/-- one emitted log record: a severity and a message -/
structure LogEvent where
  level : LogLevel
  msg : String
  deriving DecidableEq, Repr

-- ===========================================================================
-- Exception model (cli-app-typer.py)
-- ===========================================================================

/-- Exception classes distinguished by clean_terminate: the seven builtin
user-facing classes, the application class MyAppException (source line 67),
and every other class, carried by name. -/
inductive ExcClass
  | permissionError
  | fileExistsError
  | fileNotFoundError
  | interruptedError
  | isADirectoryError
  | notADirectoryError
  | timeoutError
  | myAppException
  | other (name : String)
  deriving DecidableEq, Repr

def class_name : ExcClass → String
  | .permissionError => "PermissionError"
  | .fileExistsError => "FileExistsError"
  | .fileNotFoundError => "FileNotFoundError"
  | .interruptedError => "InterruptedError"
  | .isADirectoryError => "IsADirectoryError"
  | .notADirectoryError => "NotADirectoryError"
  | .timeoutError => "TimeoutError"
  | .myAppException => "MyAppException"
  | .other name => name

/-- a python value relevant to the rc derivation: None or an integer -/
inductive PyLit
  | noneV
  | intV (n : Int)
  deriving DecidableEq, Repr

/-- a python attribute slot: absent from the object, present holding None,
or present holding an integer.  (OSError instances always carry an errno
slot, possibly None; MyAppException carries the class attribute rc = 1.) -/
inductive Attr
  | absent
  | pynone
  | intv (n : Int)
  deriving DecidableEq, Repr

/-- getattr(obj, name, default): the default is returned only when the
attribute slot is absent. -/
def Attr.getD : Attr → PyLit → PyLit
  | .absent, d => d
  | .pynone, _ => .noneV
  | .intv n, _ => .intV n

/-- int(x): succeeds on an integer, raises TypeError on None. -/
def pyInt : PyLit → Except String Int
  | .noneV => .error "TypeError: int() argument must be a string, a bytes-like object or a real number, not NoneType"
  | .intV n => .ok n

def pyint_none_error : String :=
  "TypeError: int() argument must be a string, a bytes-like object or a real number, not NoneType"

/-- shallow model of an exception instance reaching clean_terminate:
its class, its message (str(err)), and its rc / errno / advice attribute
slots, the only attributes clean_terminate reads. -/
structure PyExc where
  cls : ExcClass
  msg : String
  rcA : Attr
  errnoA : Attr
  advice : Option String
  deriving DecidableEq, Repr

/-- the rc = 1 class attribute of MyAppException (source line 69) -/
def MyAppException_rc : Int := 1

def app_version : String := "0.1.0"

-- ===========================================================================
-- clean_terminate (cli-app-typer.py lines 252-288) and cli_run (294-300)
-- ===========================================================================

/-- the user_errors tuple of clean_terminate (source lines 255-267):
isinstance against it is membership of the instance class in this set. -/
def user_errors : List ExcClass :=
  [.permissionError, .fileExistsError, .fileNotFoundError, .interruptedError,
   .isADirectoryError, .notADirectoryError, .timeoutError, .myAppException]

/-- rc = int(getattr(err, "rc", getattr(err, "errno", 1)))  (source line 272).
The inner getattr defaults to the integer 1; int() raises on None. -/
def derived_rc (err : PyExc) : Except String Int :=
  pyInt (err.rcA.getD (err.errnoA.getD (.intV 1)))

/-- advice = getattr(err, "advice", None); if advice: logger.warning(advice)
(source lines 273-275). -/
def advisory_logs (err : PyExc) : List LogEvent :=
  match err.advice with
  | some a => [⟨.warning, a⟩]
  | none => []

/-- logger.critical("MyApp exited with error %s (%s)", err_name, rc)
(source line 280). -/
def exit_summary (c : ExcClass) (rc : Int) : String :=
  "MyApp exited with error " ++ class_name c ++ " (" ++ toString rc ++ ")"

/-- the three records logged on the developer-bug catchall path (source
lines 285-287); the class-object %s formatting is modelled by the bare
class name, the formatted trace by a fixed marker. -/
def dev_logs (c : ExcClass) : List LogEvent :=
  [⟨.error, "traceback.format_exc()"⟩,
   ⟨.critical, "Uncatched error: " ++ class_name c⟩,
   ⟨.critical, "This is a bug, please report it."⟩]

/-- clean_terminate (source lines 252-288).  Result: .ok (logs, rc) models
the emitted log records followed by sys.exit(rc); .error models a secondary
exception escaping clean_terminate itself (int(None) on line 272 raises
before any logging happens). -/
def clean_terminate (err : PyExc) : Except String (List LogEvent × Int) :=
  if err.cls ∈ user_errors then
    match derived_rc err with
    | .error e => .error e
    | .ok rc =>
        .ok (advisory_logs err ++
              [⟨.error, err.msg⟩, ⟨.critical, exit_summary err.cls rc⟩], rc)
  else
    .ok (dev_logs err.cls, 255)

/-- cli_run (source lines 294-300): the typer application either terminates
with an exit code of its own (.ok rv, SystemExit is not an Exception and is
not caught) or raises an Exception, which is passed to clean_terminate. -/
def cli_run (result : Except PyExc Int) : Except String (List LogEvent × Int) :=
  match result with
  | .ok rv => .ok ([], rv)
  | .error err => clean_terminate err

-- ===========================================================================
-- Verbosity tables
-- ===========================================================================

/-- CmdApp.get_logger (cli-app-argparse.py lines 64-71): the dict lookup
{0: ERROR, 1: WARN, 2: INFO}[verbose] with the KeyError fallback DEBUG. -/
def get_logger_loglevel (verbose : Nat) : Int :=
  if verbose = 0 then logging_ERROR
  else if verbose = 1 then logging_WARN
  else if verbose = 2 then logging_INFO
  else logging_DEBUG

/-- main callback of cli-app-typer.py, lines 148-149:
verbose = 30 - (verbose * 10); verbose = verbose if verbose > 10 else DEBUG.
The typer option declares count=True with min 0 and max 3. -/
def main_loglevel (verbose : Nat) : Int :=
  if 30 - (verbose : Int) * 10 > 10 then 30 - (verbose : Int) * 10
  else logging_DEBUG

/-- the verbosity table as the claims state it: count 0 gives
error-and-above only, then one tier per repetition, clamped at debug. -/
def claimed_verbosity_table (verbose : Nat) : Int :=
  if verbose = 0 then logging_ERROR
  else if verbose = 1 then logging_WARN
  else if verbose = 2 then logging_INFO
  else logging_DEBUG

-- ===========================================================================
-- argparse dispatch (cli-app-argparse.py CmdApp.cli, lines 108-120)
-- ===========================================================================

/-- methods defined on class CmdApp, for the hasattr(self, "cli_" + command)
lookup of line 114. -/
def cmdAppMethodNames : List String :=
  ["__init__", "get_args", "get_logger", "cli", "cli_demo"]

/-- observable outcome of CmdApp.cli followed by the normal end of the
script: which handler method (if any) was invoked, the log records emitted
by cli itself, whether parser.print_help ran, and the process exit code
(cli never calls sys.exit, so every path here ends the script with code 0). -/
structure DispatchOutcome where
  invoked : Option String
  logs : List LogEvent
  helpPrinted : Bool
  exitCode : Int
  deriving DecidableEq, Repr

/-- CmdApp.cli (source lines 108-120).  The command is the subparser name
bound to dest "command" (None when no subcommand was given; the empty
string is falsy in python, matching the missing-subcommand branch). -/
def CmdApp_cli (command : Option String) : DispatchOutcome :=
  match command with
  | none => ⟨none, [⟨.error, "Missing sub command"⟩], true, 0⟩
  | some cmd =>
      if cmd = "" then ⟨none, [⟨.error, "Missing sub command"⟩], true, 0⟩
      else if ("cli_" ++ cmd) ∈ cmdAppMethodNames then
        ⟨some cmd, [], false, 0⟩
      else
        ⟨none, [⟨.error, "Subcommand " ++ cmd ++ " does not exists."⟩], false, 0⟩

-- ===========================================================================
-- typer application surface (cli-app-typer.py lines 107-160)
-- ===========================================================================

/-- a parsed invocation of the typer application: the count of the repeated
verbosity flag, the optional config-path value (-c, --config), the version
flag, and the
optional subcommand name. -/
structure TyperInvocation where
  verbose : Nat
  config : Option String
  version : Bool
  command : Option String
  deriving DecidableEq, Repr

/-- observable outcome of one run of the typer application. -/
structure TyperOutcome where
  prints : List String
  helpPrinted : Bool
  handlerRan : Bool
  levelSet : Option Int
  exitCode : Int
  deriving DecidableEq, Repr

/-- the subcommands registered on cli_app (source lines 167-247). -/
def typerCommands : List String := ["help", "logging", "command1", "group1"]

/-- an invocation carrying zero command-line tokens. -/
def isEmptyInvocation (inv : TyperInvocation) : Bool :=
  inv.verbose == 0 && inv.config == none && !inv.version && inv.command == none

/-- Modelled from the spec: the exit status of the no-args-is-help path is
decided by the CLI library (outside src/); the spec calls it a non-zero
advisory code, modelled as the usage-error code 2. -/
def noArgsHelpExit : Int := 2

/-- one run of the typer application (cli_app declared with
invoke_without_command and no_args_is_help, source lines 107-111; the main
callback is source lines 117-160).  The library-side dispatch — option
range validation, no-args-is-help, unknown-command usage errors, and the
callback-then-command invocation order — is modelled from the spec, since
the library is outside src/.  The callback body is from the source: it sets
the logging level, then on the version flag prints the version string and
returns without creating ctx.obj, so a subsequent command1 invocation finds
ctx.obj unset, raises TypeError, and cli_run terminates with the developer
sentinel 255.  Handler bodies are the placeholder prints the spec rules out
of scope; only the fact that a handler ran is recorded. -/
def runTyperApp (inv : TyperInvocation) : TyperOutcome :=
  if 3 < inv.verbose then ⟨[], false, false, none, 2⟩
  else if isEmptyInvocation inv then ⟨[], true, false, none, noArgsHelpExit⟩
  else
    let lvl := main_loglevel inv.verbose
    let verPrints := if inv.version then [app_version] else []
    match inv.command with
    | none => ⟨verPrints, false, false, some lvl, 0⟩
    | some c =>
        if c ∈ typerCommands then
          if inv.version && c == "command1" then
            ⟨verPrints, false, true, some lvl, 255⟩
          else ⟨verPrints, false, true, some lvl, 0⟩
        else ⟨[], false, false, none, 2⟩

-- ===========================================================================
-- restricted-choice options
-- ===========================================================================

/-- choices of the --choice option of the demo subparser
(cli-app-argparse.py line 40). -/
def demo_choices : List String := ["choice1", "choice2"]

/-- values of the OutputFormat enum backing the --format option of command1
(cli-app-typer.py lines 93-99 and 195-198). -/
def output_formats : List String := ["yaml", "json", "toml"]

/-- outcome of parsing one restricted-choice option value. -/
structure ChoiceParseOutcome where
  usagePrinted : Bool
  handlerRan : Bool
  exitCode : Int
  deriving DecidableEq, Repr

/-- Modelled from the spec: restricted-choice validation is performed by the
argument-parsing library (outside src/) against the declared choice list;
an out-of-set value is a fatal parse failure reporting a usage message to
the error stream and exiting non-zero (code 2) before any handler runs. -/
def parse_choice (declared : List String) (supplied : Option String) : ChoiceParseOutcome :=
  match supplied with
  | none => ⟨false, true, 0⟩
  | some v => if v ∈ declared then ⟨false, true, 0⟩ else ⟨true, false, 2⟩

-- ===========================================================================
-- configuration-path defaults
-- ===========================================================================

/-- default of the --env option of the demo subparser:
os.environ.get("APP_SETTING", "Unset")  (cli-app-argparse.py line 39). -/
def env_default (env : Option String) : String := env.getD "Unset"

/-- resolution of the --env option: a supplied command-line value, else the
computed default. -/
def resolve_env_opt (cli : Option String) (env : Option String) : String :=
  cli.getD (env_default env)

/-- Modelled from the spec: the CLI library resolves an option from the
command line first, the declared environment variable second, and the
declared default last.  The default "." and the variable MYAPP_PROJECT_DIR
are declared in the source (cli-app-typer.py lines 120-127). -/
def resolve_working_dir (cli : Option String) (env : Option String) : String :=
  cli.getD (env.getD ".")

-- ===========================================================================
-- concrete exception instances used by counterexamples and witnesses
-- ===========================================================================

/-- MyApp.fail raises MyAppException with this message (source line 90);
rc is the class attribute 1, there is no errno slot and no advice. -/
def err_myapp : PyExc :=
  ⟨.myAppException, "This failure does not create python tracebacks", .intv 1, .absent, none⟩

/-- a PermissionError raised in application code without an OS error
number: the errno slot exists and holds None. -/
def err_perm_none : PyExc :=
  ⟨.permissionError, "Permission denied", .absent, .pynone, none⟩

/-- a FileNotFoundError raised in application code without an OS error
number: the errno slot exists and holds None. -/
def err_fnf_none : PyExc :=
  ⟨.fileNotFoundError, "No such file or directory", .absent, .pynone, none⟩

/-- a TypeError, outside the user_errors tuple. -/
def err_type_error : PyExc :=
  ⟨.other "TypeError", "unsupported operand type", .absent, .absent, none⟩

-- ===========================================================================
-- Theorems
-- ===========================================================================

/-- C1 (amended): for every exception instance of a user-facing class whose
rc derivation succeeds, the classifier logs the optional advisory at
warning severity, the message at error severity and the categorical summary
at critical severity, and exits with the derived code: the declared rc if
present, else the errno slot, else 1. -/
theorem C1_user_error_exit_codes (err : PyExc) (rc : Int)
    (hcls : err.cls ∈ user_errors) (hrc : derived_rc err = .ok rc) :
    cli_run (.error err) =
      .ok (advisory_logs err ++
            [⟨.error, err.msg⟩, ⟨.critical, exit_summary err.cls rc⟩], rc)
    ∧ (∀ n, err.rcA = .intv n → rc = n)
    ∧ (err.rcA = .absent → ∀ n, err.errnoA = .intv n → rc = n)
    ∧ (err.rcA = .absent → err.errnoA = .absent → rc = 1) := by
  refine ⟨?_, ?_, ?_, ?_⟩
  · show clean_terminate err = _
    unfold clean_terminate
    rw [if_pos hcls, hrc]
  · intro n h
    simp [derived_rc, h, Attr.getD, pyInt] at hrc
    exact hrc.symm
  · intro h1 n h2
    simp [derived_rc, h1, h2, Attr.getD, pyInt] at hrc
    exact hrc.symm
  · intro h1 h2
    simp [derived_rc, h1, h2, Attr.getD, pyInt] at hrc
    exact hrc.symm

/-- C1 witness: MyApp.fail raises MyAppException, whose class attribute
rc = 1 is the derived exit code. -/
theorem C1_user_error_exit_codes_witness :
    err_myapp.cls ∈ user_errors ∧ derived_rc err_myapp = .ok 1 ∧
    cli_run (.error err_myapp) =
      .ok (advisory_logs err_myapp ++
            [⟨.error, err_myapp.msg⟩, ⟨.critical, exit_summary err_myapp.cls 1⟩], 1) :=
  ⟨by decide, by rfl, (C1_user_error_exit_codes err_myapp 1 (by decide) (by rfl)).1⟩

/-- C1 counterexample: a PermissionError carrying errno = None (as any
PermissionError raised directly by application code does) is in the closed
set, yet the classifier does not exit with an associated code: line 272
evaluates int(None), which raises TypeError before any logging. -/
theorem C1_user_error_counterexample :
    err_perm_none.cls ∈ user_errors ∧
    clean_terminate err_perm_none = .error pyint_none_error :=
  ⟨by decide, by rfl⟩

/-- C2: every exception whose class is outside the closed user-facing set
makes the process exit with the fixed sentinel 255, after logging the
formatted trace at error severity and the fixed uncaught-error report at
critical severity; 255 differs from the declared user-facing default code. -/
theorem C2_uncaught_sentinel (err : PyExc) (h : err.cls ∉ user_errors) :
    cli_run (.error err) = .ok (dev_logs err.cls, 255)
    ∧ (255 : Int) ≠ MyAppException_rc := by
  refine ⟨?_, by decide⟩
  show clean_terminate err = _
  unfold clean_terminate
  rw [if_neg h]

/-- C2 witness: a TypeError is outside the closed set and exits 255. -/
theorem C2_uncaught_sentinel_witness :
    err_type_error.cls ∉ user_errors ∧
    (cli_run (.error err_type_error) = .ok (dev_logs err_type_error.cls, 255)
      ∧ (255 : Int) ≠ MyAppException_rc) :=
  ⟨by decide, C2_uncaught_sentinel err_type_error (by decide)⟩

/-- C10: at a closed-set instance whose errno slot holds None (and which
has no rc slot), the exit-code derivation int(getattr(err, rc-slot,
getattr(err, errno-slot, 1))) evaluates int(None) and raises TypeError, so
the classifier propagates a secondary exception to its caller instead of
terminating via sys.exit. -/
theorem C10_rc_derivation_bug :
    err_fnf_none.cls ∈ user_errors ∧
    cli_run (.error err_fnf_none) = .error pyint_none_error :=
  ⟨by decide, by rfl⟩

/-- C3 counterexample: at verbosity count 0 the typer example sets the
threshold to 30 (warning), not the 40 (error-and-above only) the claimed
table requires. -/
theorem C3_verbosity_table_counterexample :
    main_loglevel 0 = logging_WARN ∧ claimed_verbosity_table 0 = logging_ERROR ∧
    main_loglevel 0 ≠ claimed_verbosity_table 0 := by
  refine ⟨by decide, by decide, by decide⟩

/-- C3 (amended): the argparse example sets the logger threshold exactly by
the claimed table (0 error, 1 warning, 2 info, beyond that debug); the
typer example sets it one tier more verbose: 0 warning, 1 info, and debug
from count 2 on. -/
theorem C3_verbosity_table_amended :
    (∀ v : Nat, get_logger_loglevel v = claimed_verbosity_table v)
    ∧ main_loglevel 0 = logging_WARN
    ∧ main_loglevel 1 = logging_INFO
    ∧ (∀ v : Nat, 2 ≤ v → main_loglevel v = logging_DEBUG) := by
  refine ⟨fun v => rfl, by decide, by decide, fun v hv => ?_⟩
  unfold main_loglevel logging_DEBUG
  split
  · omega
  · rfl

/-- C3 witness: at count 4 the typer threshold is debug. -/
theorem C3_verbosity_table_witness :
    (2 : Nat) ≤ 4 ∧ main_loglevel 4 = logging_DEBUG :=
  ⟨by decide, C3_verbosity_table_amended.2.2.2 4 (by decide)⟩

/-- C4: from verbosity count 3 on, both examples set the most verbose
threshold (debug), and both count-to-threshold mappings are antitone in the
numeric threshold, i.e. a monotonic clamp. -/
theorem C4_verbosity_clamp :
    (∀ v : Nat, 3 ≤ v → get_logger_loglevel v = logging_DEBUG)
    ∧ (∀ v : Nat, 3 ≤ v → main_loglevel v = logging_DEBUG)
    ∧ (∀ a b : Nat, a ≤ b → get_logger_loglevel b ≤ get_logger_loglevel a)
    ∧ (∀ a b : Nat, a ≤ b → main_loglevel b ≤ main_loglevel a) := by
  refine ⟨?_, ?_, ?_, ?_⟩
  · intro v hv
    unfold get_logger_loglevel logging_ERROR logging_WARN logging_INFO logging_DEBUG
    split_ifs <;> omega
  · intro v hv
    unfold main_loglevel logging_DEBUG
    split_ifs <;> omega
  · intro a b h
    unfold get_logger_loglevel logging_ERROR logging_WARN logging_INFO logging_DEBUG
    split_ifs <;> omega
  · intro a b h
    unfold main_loglevel logging_DEBUG
    split_ifs <;> omega

/-- C4 witness: counts past the table clamp to debug, and the thresholds
never rise with the count. -/
theorem C4_verbosity_clamp_witness :
    ((3 : Nat) ≤ 5 ∧ get_logger_loglevel 5 = logging_DEBUG)
    ∧ ((3 : Nat) ≤ 7 ∧ main_loglevel 7 = logging_DEBUG)
    ∧ ((1 : Nat) ≤ 2 ∧ get_logger_loglevel 2 ≤ get_logger_loglevel 1)
    ∧ ((0 : Nat) ≤ 3 ∧ main_loglevel 3 ≤ main_loglevel 0) :=
  ⟨⟨by decide, C4_verbosity_clamp.1 5 (by decide)⟩,
   ⟨by decide, C4_verbosity_clamp.2.1 7 (by decide)⟩,
   ⟨by decide, C4_verbosity_clamp.2.2.1 1 2 (by decide)⟩,
   ⟨by decide, C4_verbosity_clamp.2.2.2 0 3 (by decide)⟩⟩

/-- C5 counterexample: the parsed command subcommand2 resolves to no
handler method, and the dispatcher then ends the script with exit code 0,
not a non-zero code. -/
theorem C5_unknown_command_counterexample :
    ("cli_" ++ "subcommand2") ∉ cmdAppMethodNames ∧
    (CmdApp_cli (some "subcommand2")).exitCode = 0 ∧
    (CmdApp_cli (some "subcommand2")).invoked = none := by
  refine ⟨by decide, by decide, by decide⟩

/-- C5 (amended): for every non-empty command name that resolves to no
handler method, the dispatcher logs an error naming the unknown command and
invokes no handler, but it sets no exit status: the script then terminates
normally with exit code 0. -/
theorem C5_unknown_command_amended (cmd : String) (h0 : cmd ≠ "")
    (h : ("cli_" ++ cmd) ∉ cmdAppMethodNames) :
    CmdApp_cli (some cmd) =
      ⟨none, [⟨.error, "Subcommand " ++ cmd ++ " does not exists."⟩], false, 0⟩ := by
  simp only [CmdApp_cli]
  rw [if_neg h0, if_neg h]

/-- C5 witness: dispatching the registered-but-handlerless subcommand2. -/
theorem C5_unknown_command_witness :
    "subcommand2" ≠ "" ∧ ("cli_" ++ "subcommand2") ∉ cmdAppMethodNames ∧
    CmdApp_cli (some "subcommand2") =
      ⟨none, [⟨.error, "Subcommand " ++ "subcommand2" ++ " does not exists."⟩], false, 0⟩ :=
  ⟨by decide, by decide, C5_unknown_command_amended "subcommand2" (by decide) (by decide)⟩

/-- C6: every invocation of the typer application that carries the version
flag and any valid combination of the other global flags, and no
subcommand, prints exactly the version string and exits 0, without printing
help and without running any handler. -/
theorem C6_version_flag (verbose : Nat) (config : Option String)
    (h : verbose ≤ 3) :
    runTyperApp ⟨verbose, config, true, none⟩ =
      ⟨[app_version], false, false, some (main_loglevel verbose), 0⟩ := by
  unfold runTyperApp
  rw [if_neg (by omega : ¬ 3 < verbose)]
  rw [if_neg (by simp [isEmptyInvocation])]
  rfl

/-- C6 witness: the version flag next to a verbosity flag and a config
value still prints the version string and exits 0. -/
theorem C6_version_flag_witness :
    (2 : Nat) ≤ 3 ∧
    runTyperApp ⟨2, some "somewhere", true, none⟩ =
      ⟨[app_version], false, false, some (main_loglevel 2), 0⟩ :=
  ⟨by decide, C6_version_flag 2 (some "somewhere") (by decide)⟩

/-- C7: every supplied value outside the declared choice set — for the
choice option of the argparse demo subcommand and for the format option of
the typer command1 — is rejected at parse time: a usage message is printed,
no handler runs, and the exit code 2 is non-zero. -/
theorem C7_restricted_choice :
    (∀ v : String, v ∉ demo_choices →
      parse_choice demo_choices (some v) = ⟨true, false, 2⟩)
    ∧ (∀ v : String, v ∉ output_formats →
      parse_choice output_formats (some v) = ⟨true, false, 2⟩)
    ∧ (2 : Int) ≠ 0 := by
  refine ⟨?_, ?_, by decide⟩
  · intro v hv
    simp only [parse_choice]
    rw [if_neg hv]
  · intro v hv
    simp only [parse_choice]
    rw [if_neg hv]

/-- C7 witness: the value choice3 is outside the declared set and is
rejected before any handler runs. -/
theorem C7_restricted_choice_witness :
    "choice3" ∉ demo_choices ∧
    parse_choice demo_choices (some "choice3") = ⟨true, false, 2⟩ :=
  ⟨by decide, C7_restricted_choice.1 "choice3" (by decide)⟩

/-- C8 counterexample: with zero arguments the argparse example prints the
usage text but then ends the script with exit code 0, not a non-zero
status. -/
theorem C8_no_args_counterexample :
    (CmdApp_cli none).helpPrinted = true ∧ (CmdApp_cli none).exitCode = 0 := by
  refine ⟨by decide, by decide⟩

/-- C8 (amended): with zero arguments the argparse example logs a
missing-subcommand error, prints the usage text, invokes no handler, and
exits 0; the typer example prints help through the no-args-is-help
mechanism of the CLI library and exits with the library advisory code,
which is non-zero. -/
theorem C8_no_args_amended :
    CmdApp_cli none = ⟨none, [⟨.error, "Missing sub command"⟩], true, 0⟩
    ∧ runTyperApp ⟨0, none, false, none⟩ = ⟨[], true, false, none, noArgsHelpExit⟩
    ∧ noArgsHelpExit ≠ 0 := by
  refine ⟨by decide, by decide, by decide⟩

/-- C9: for both examples a command-line value always wins; with no
command-line value the designated environment variable supplies the value
when set, and the fixed default (the current-directory path for the typer
config option, the literal Unset for the argparse env option) otherwise. -/
theorem C9_config_env_fallback :
    (∀ (v : String) (env : Option String), resolve_working_dir (some v) env = v)
    ∧ (∀ e : String, resolve_working_dir none (some e) = e)
    ∧ resolve_working_dir none none = "."
    ∧ (∀ (v : String) (env : Option String), resolve_env_opt (some v) env = v)
    ∧ (∀ e : String, resolve_env_opt none (some e) = e)
    ∧ resolve_env_opt none none = "Unset" := by
  refine ⟨fun v env => rfl, fun e => rfl, rfl, fun v env => rfl, fun e => rfl, rfl⟩
